import Mathlib

/-!
# Boot-time trust gate: a shallow embedding

The development embeds four C sources:

* `s.c`: the UEFI application (`LoadFile`, `UefiMain`) that loads `hash.bin`,
  `publickey.bin` and `sig.bin`, checks a Dilithium5 signature and chain-loads
  the next image;
* `rsaboot.c`: `verify_boot_image` over the OpenSSL EVP calls;
* `gen_keys.c`: `main`, the offline key generator;
* `secure_boot.c`: `cleanup` of the benchmark program.

Every call that leaves the translation unit (firmware services, liboqs, OpenSSL,
libc) is represented by its outcome, taken from an environment record, so each
function becomes a total function from an environment to its return value and
the ordered list of the calls it made.  `Print`, `fprintf` and `printf` only
write to the console and are left out of the call lists.
-/

namespace SecureBoot

/-! ## UEFI status codes (X64: `UINTN` is 64 bits wide) -/

/-- An `EFI_STATUS` is a `UINTN`. -/
abbrev EFI_STATUS := Nat

/-- Highest bit of a `UINTN` (`MAX_BIT` of the X64 `ProcessorBind.h`). -/
def MAX_BIT : Nat := 2 ^ 63

/-- The `ENCODE_ERROR` macro of `Base.h`: `MAX_BIT | StatusCode`. -/
def ENCODE_ERROR (StatusCode : Nat) : EFI_STATUS := MAX_BIT ||| StatusCode

def EFI_SUCCESS : EFI_STATUS := 0
def EFI_OUT_OF_RESOURCES : EFI_STATUS := ENCODE_ERROR 9
def EFI_NOT_FOUND : EFI_STATUS := ENCODE_ERROR 14
def EFI_ABORTED : EFI_STATUS := ENCODE_ERROR 21
def EFI_SECURITY_VIOLATION : EFI_STATUS := ENCODE_ERROR 26

/-- The `EFI_ERROR` macro: `((INTN)(Status)) < 0`, that is, bit 63 is set. -/
def EFI_ERROR (Status : EFI_STATUS) : Bool := decide (MAX_BIT ≤ Status % 2 ^ 64)

/-- The `OQS_SUCCESS` value of the `OQS_STATUS` enumeration. -/
def OQS_SUCCESS : Int := 0

/-! ## Calls observed in `s.c` -/

/-- The three files read by `UefiMain`; each names the buffer it is loaded into
(`boot_image_hash`, `public_key`, `signature`). -/
inductive Artifact where
  | hash
  | publickey
  | sig
  deriving DecidableEq, Repr

/-- File name passed to `LoadFile` for each artifact. -/
def Artifact.FileName : Artifact → String
  | .hash => "hash.bin"
  | .publickey => "publickey.bin"
  | .sig => "sig.bin"

/-- The calls of `s.c` that are recorded, in program order.  A `Bool` argument
tells whether the call returned a non-NULL object; `OQS_SIG_verify` carries the
message length and signature length it was given. -/
inductive Event where
  | OQS_SIG_new (ok : Bool)
  | LoadFile (a : Artifact)
  | AllocateZeroPool (a : Artifact) (ok : Bool)
  | OQS_SIG_verify (message_len signature_len : Nat)
  | HandleProtocol
  | FileDevicePath
  | LoadImage
  | StartImage
  | OQS_SIG_free
  | FreePool (a : Artifact)
  deriving DecidableEq, Repr

/-- Outcomes of the firmware calls made by one `LoadFile` call. -/
structure FileOutcome where
  /-- status of `HandleProtocol (ImageHandle, LoadedImageProtocol)` -/
  HandleProtocol_LoadedImage : EFI_STATUS
  /-- status of `HandleProtocol (DeviceHandle, SimpleFileSystemProtocol)` -/
  HandleProtocol_FileSystem : EFI_STATUS
  OpenVolume : EFI_STATUS
  Open : EFI_STATUS
  GetInfo : EFI_STATUS
  /-- the value of `FileInfo->FileSize` -/
  FileSize : Nat
  /-- whether `AllocateZeroPool (*BufferSize)` returned a non-NULL buffer -/
  AllocateZeroPool : Bool
  Read : EFI_STATUS
  /-- the value `File->Read` leaves in `*BufferSize` -/
  ReadSize : Nat

/-- What `LoadFile` leaves behind: its return value, the value of `*BufferSize`
and the calls it made. -/
structure LoadResult where
  Status : EFI_STATUS
  BufferSize : Nat
  trace : List Event

/-- `LoadFile` of `s.c`.  `BufferSize` is the value the caller's variable holds
on entry (it is written only once the file information has been read).  The
`FileInfo` scratch allocation and the file handles stay inside `LoadFile`; only
the buffer handed back to the caller is recorded. -/
def LoadFile (f : FileOutcome) (a : Artifact) (BufferSize : Nat) : LoadResult :=
  if EFI_ERROR f.HandleProtocol_LoadedImage then
    ⟨f.HandleProtocol_LoadedImage, BufferSize, [Event.LoadFile a]⟩
  else if EFI_ERROR f.HandleProtocol_FileSystem then
    ⟨f.HandleProtocol_FileSystem, BufferSize, [Event.LoadFile a]⟩
  else if EFI_ERROR f.OpenVolume then
    ⟨f.OpenVolume, BufferSize, [Event.LoadFile a]⟩
  else if EFI_ERROR f.Open then
    ⟨f.Open, BufferSize, [Event.LoadFile a]⟩
  else if EFI_ERROR f.GetInfo then
    ⟨f.GetInfo, BufferSize, [Event.LoadFile a]⟩
  else if !f.AllocateZeroPool then
    ⟨EFI_OUT_OF_RESOURCES, f.FileSize, [Event.LoadFile a, Event.AllocateZeroPool a false]⟩
  else
    ⟨f.Read, f.ReadSize, [Event.LoadFile a, Event.AllocateZeroPool a true]⟩

/-- Outcomes of everything `UefiMain` calls. -/
structure Env where
  /-- whether `OQS_SIG_new ("Dilithium5")` returned a non-NULL object -/
  OQS_SIG_new : Bool
  /-- the constant `OQS_SIG_dilithium_5_length_public_key` of the liboqs headers -/
  length_public_key : Nat
  /-- the constant `OQS_SIG_dilithium_5_length_signature` of the liboqs headers -/
  length_signature : Nat
  /-- firmware outcomes for each of the three `LoadFile` calls -/
  file : Artifact → FileOutcome
  /-- indeterminate initial values of `hash_len`, `pubkey_len`, `sig_len` -/
  uninitialized : Artifact → Nat
  /-- return value of `OQS_SIG_verify` -/
  OQS_SIG_verify : Int
  /-- status of `HandleProtocol` in the chain-load block -/
  HandleProtocol : EFI_STATUS
  /-- whether `FileDevicePath` returned a non-NULL path -/
  FileDevicePath : Bool
  LoadImage : EFI_STATUS
  StartImage : EFI_STATUS

/-- Return value of `UefiMain` and the calls it made. -/
structure Result where
  Status : EFI_STATUS
  trace : List Event

/-- The `LOAD_FROM_FILE` macro at its three uses in `UefiMain`. -/
def LOAD_FROM_FILE (e : Env) (a : Artifact) : LoadResult :=
  LoadFile (e.file a) a (e.uninitialized a)

/-- The block under `// Free resources` at the end of `UefiMain`. -/
def freeResources : List Event :=
  [Event.OQS_SIG_free, Event.FreePool .hash, Event.FreePool .publickey, Event.FreePool .sig]

/-- `UefiMain` of `s.c`. -/
def UefiMain (e : Env) : Result :=
  if !e.OQS_SIG_new then
    ⟨EFI_ABORTED, [Event.OQS_SIG_new false]⟩
  else
    let h := LOAD_FROM_FILE e .hash
    let t1 := Event.OQS_SIG_new true :: h.trace
    if EFI_ERROR h.Status then
      ⟨h.Status, t1⟩
    else
      let p := LOAD_FROM_FILE e .publickey
      let t2 := t1 ++ p.trace
      if EFI_ERROR p.Status || p.BufferSize != e.length_public_key then
        ⟨p.Status, t2⟩
      else
        let s := LOAD_FROM_FILE e .sig
        let t3 := t2 ++ s.trace
        if EFI_ERROR s.Status || s.BufferSize != e.length_signature then
          ⟨s.Status, t3⟩
        else
          let ret := e.OQS_SIG_verify
          let t4 := t3 ++ [Event.OQS_SIG_verify h.BufferSize s.BufferSize]
          if ret == OQS_SUCCESS then
            let t5 := t4 ++ [Event.HandleProtocol]
            if EFI_ERROR e.HandleProtocol then
              ⟨e.HandleProtocol, t5⟩
            else
              let t6 := t5 ++ [Event.FileDevicePath]
              if !e.FileDevicePath then
                ⟨EFI_NOT_FOUND, t6⟩
              else
                let t7 := t6 ++ [Event.LoadImage]
                if EFI_ERROR e.LoadImage then
                  ⟨e.LoadImage, t7⟩
                else
                  let t8 := t7 ++ [Event.StartImage]
                  if EFI_ERROR e.StartImage then
                    ⟨e.StartImage, t8⟩
                  else
                    ⟨e.StartImage, t8 ++ freeResources⟩
          else
            ⟨EFI_SECURITY_VIOLATION, t4 ++ freeResources⟩

/-! ### Observations on a call list -/

/-- Whether a call is `OQS_SIG_verify`. -/
def Event.isVerify : Event → Bool
  | .OQS_SIG_verify _ _ => true
  | _ => false

/-- Whether a call is `LoadFile`. -/
def Event.isLoadFile : Event → Bool
  | .LoadFile _ => true
  | _ => false

/-- Whether a call enters the chain loader (`gBS->LoadImage`, `gBS->StartImage`). -/
def Event.isChain : Event → Bool
  | .LoadImage => true
  | .StartImage => true
  | _ => false

/-- Number of `OQS_SIG_verify` calls. -/
def verifyCalls (t : List Event) : Nat := t.countP Event.isVerify

/-- Number of `LoadFile` calls. -/
def loadFileCalls (t : List Event) : Nat := t.countP Event.isLoadFile

/-- Number of calls into the chain loader. -/
def chainCalls (t : List Event) : Nat := t.countP Event.isChain

/-- Whether every chain-loader call of a call list comes after an
`OQS_SIG_verify` call; `verified` tells whether one was seen already. -/
def chainAfterVerify (verified : Bool) : List Event → Bool
  | [] => true
  | ev :: t =>
    (!ev.isChain || verified) && chainAfterVerify (verified || ev.isVerify) t

/-- The resources `UefiMain` owns: the `OQS_SIG` object and the three buffers
handed back by `LoadFile`. -/
inductive Resource where
  | sig
  | buffer (a : Artifact)
  deriving DecidableEq, Repr

/-- The resource a call acquires, if any. -/
def Event.acquires : Event → Option Resource
  | .OQS_SIG_new true => some .sig
  | .AllocateZeroPool a true => some (.buffer a)
  | _ => none

/-- The resource a call releases, if any. -/
def Event.releases : Event → Option Resource
  | .OQS_SIG_free => some .sig
  | .FreePool a => some (.buffer a)
  | _ => none

/-- Number of times `r` is released in a call list. -/
def releaseCount (r : Resource) (t : List Event) : Nat :=
  t.countP fun ev => ev.releases == some r

/-- Number of times `r` is acquired in a call list. -/
def acquireCount (r : Resource) (t : List Event) : Nat :=
  t.countP fun ev => ev.acquires == some r

/-- One step of the live-resource set: an acquisition adds the resource, a
release removes it; releasing a resource that is not live is a fault (`none`). -/
def liveStep (live : Option (List Resource)) (ev : Event) : Option (List Resource) :=
  match live with
  | none => none
  | some l =>
    match ev.acquires, ev.releases with
    | some r, _ => some (r :: l)
    | none, some r => if r ∈ l then some (l.erase r) else none
    | none, none => some l

/-- The set of live resources after a call list, starting from none live. -/
def liveAfter (t : List Event) : Option (List Resource) :=
  t.foldl liveStep (some [])

/-! ## `rsaboot.c` -/

namespace rsaboot

/-- Outcomes of the OpenSSL calls made by `verify_boot_image`. -/
structure Env where
  /-- whether the static `verify_ctx` is already non-NULL on entry -/
  verify_ctx : Bool
  /-- whether `EVP_MD_CTX_new ()` returns a non-NULL context -/
  EVP_MD_CTX_new : Bool
  EVP_DigestVerifyInit : Int
  EVP_DigestVerifyUpdate : Int
  EVP_DigestVerifyFinal : Int

/-- `verify_boot_image` of `rsaboot.c`.  The operands of the C `&&` are `int`
values, true exactly when non-zero. -/
def verify_boot_image (e : Env) : Int :=
  let rc : Int := -1
  if !e.verify_ctx && !e.EVP_MD_CTX_new then
    -1
  else if e.EVP_DigestVerifyInit != 0 && e.EVP_DigestVerifyUpdate != 0 &&
      e.EVP_DigestVerifyFinal != 0 then
    0
  else
    rc

end rsaboot

/-! ## `gen_keys.c` -/

namespace gen_keys

def EXIT_SUCCESS : Int := 0
def EXIT_FAILURE : Int := 1

/-- The two key buffers of `main`. -/
inductive Buffer where
  | public_key
  | private_key
  deriving DecidableEq, Repr

/-- The calls of `main` that are recorded, in program order. -/
inductive Call where
  | OQS_SIG_alg_is_enabled
  | OQS_SIG_new (ok : Bool)
  | malloc (b : Buffer) (ok : Bool)
  | OQS_SIG_keypair
  | fopen (b : Buffer) (ok : Bool)
  | fwrite (b : Buffer)
  | fclose (b : Buffer)
  | free (b : Buffer)
  | OQS_SIG_free
  deriving DecidableEq, Repr

/-- Outcomes of everything `main` calls. -/
structure Env where
  OQS_SIG_alg_is_enabled : Int
  /-- whether `OQS_SIG_new` returned a non-NULL object -/
  OQS_SIG_new : Bool
  /-- whether `malloc (sig->length_public_key)` returned non-NULL -/
  malloc_public_key : Bool
  /-- whether `malloc (sig->length_secret_key)` returned non-NULL -/
  malloc_private_key : Bool
  OQS_SIG_keypair : Int
  /-- whether `fopen ("public_key.bin", "wb")` returned non-NULL -/
  fopen_pub : Bool
  /-- whether `fopen ("private_key.bin", "wb")` returned non-NULL -/
  fopen_priv : Bool

/-- Exit status of `main` and the calls it made. -/
structure Result where
  exit : Int
  trace : List Call

/-- `main` of `gen_keys.c`.  The result is `none` where the program writes to a
NULL stream, whose behaviour C leaves undefined. -/
def main (e : Env) : Option Result :=
  if e.OQS_SIG_alg_is_enabled != 1 then
    some ⟨EXIT_FAILURE, [Call.OQS_SIG_alg_is_enabled]⟩
  else if !e.OQS_SIG_new then
    some ⟨EXIT_FAILURE, [Call.OQS_SIG_alg_is_enabled, Call.OQS_SIG_new false]⟩
  else
    let t1 := [Call.OQS_SIG_alg_is_enabled, Call.OQS_SIG_new true,
      Call.malloc .public_key e.malloc_public_key, Call.malloc .private_key e.malloc_private_key]
    if !e.malloc_public_key || !e.malloc_private_key then
      some ⟨EXIT_FAILURE, t1⟩
    else if e.OQS_SIG_keypair != OQS_SUCCESS then
      some ⟨EXIT_FAILURE, t1 ++ [Call.OQS_SIG_keypair]⟩
    else
      let t2 := t1 ++ [Call.OQS_SIG_keypair, Call.fopen .public_key e.fopen_pub,
        Call.fopen .private_key e.fopen_priv]
      if !e.fopen_pub || !e.fopen_priv then
        none
      else
        some ⟨EXIT_SUCCESS, t2 ++ [Call.fwrite .public_key, Call.fwrite .private_key,
          Call.fclose .public_key, Call.fclose .private_key,
          Call.free .public_key, Call.free .private_key, Call.OQS_SIG_free]⟩

/-- Number of `malloc` calls in a call list. -/
def mallocCalls (t : List Call) : Nat :=
  t.countP fun c => match c with
    | .malloc _ _ => true
    | _ => false

end gen_keys

/-! ## `secure_boot.c` -/

namespace secure_boot

/-- The pointer arguments of `cleanup`. -/
inductive Buffer where
  | public_key
  | secret_key
  | signature
  deriving DecidableEq, Repr

/-- The calls made by `cleanup`. -/
inductive Call where
  | OQS_MEM_secure_free (b : Buffer)
  | OQS_MEM_insecure_free (b : Buffer)
  | OQS_SIG_free
  deriving DecidableEq, Repr

/-- `cleanup` of `secure_boot.c`; `sig` tells whether the `OQS_SIG` pointer is
non-NULL. -/
def cleanup (sig : Bool) : List Call :=
  (if sig then [Call.OQS_MEM_secure_free .secret_key] else []) ++
    [Call.OQS_MEM_insecure_free .public_key, Call.OQS_MEM_insecure_free .signature,
      Call.OQS_SIG_free]

end secure_boot

/-! ## Sample environments -/

/-- A file of `n` bytes that loads without error. -/
def okFile (n : Nat) : FileOutcome :=
  ⟨EFI_SUCCESS, EFI_SUCCESS, EFI_SUCCESS, EFI_SUCCESS, EFI_SUCCESS, n, true, EFI_SUCCESS, n⟩

/-- A file that cannot be opened. -/
def missingFile : FileOutcome :=
  ⟨EFI_SUCCESS, EFI_SUCCESS, EFI_SUCCESS, EFI_NOT_FOUND, EFI_SUCCESS, 0, true, EFI_SUCCESS, 0⟩

/-- Three files of the given sizes, all loading without error. -/
def okFiles (hash_len pubkey_len sig_len : Nat) : Artifact → FileOutcome
  | .hash => okFile hash_len
  | .publickey => okFile pubkey_len
  | .sig => okFile sig_len

/-- Every call succeeds: a 64-byte digest, a 2592-byte public key and a
4627-byte signature that verifies, and a next image that loads and starts. -/
def goodEnv : Env :=
  { OQS_SIG_new := true, length_public_key := 2592, length_signature := 4627,
    file := okFiles 64 2592 4627, uninitialized := fun _ => 0,
    OQS_SIG_verify := OQS_SUCCESS, HandleProtocol := EFI_SUCCESS, FileDevicePath := true,
    LoadImage := EFI_SUCCESS, StartImage := EFI_SUCCESS }

/-- As `goodEnv`, but `sig.bin` is one byte short. -/
def truncatedSigEnv : Env := { goodEnv with file := okFiles 64 2592 4626 }

/-- As `goodEnv`, but `publickey.bin` is one byte short. -/
def truncatedKeyEnv : Env := { goodEnv with file := okFiles 64 2591 4627 }

/-- As `goodEnv`, but `hash.bin` cannot be opened. -/
def missingHashEnv : Env :=
  { goodEnv with file := fun a => if a = .hash then missingFile else okFiles 64 2592 4627 a }

/-- As `goodEnv`, but `publickey.bin` cannot be opened. -/
def missingKeyEnv : Env :=
  { goodEnv with file := fun a => if a = .publickey then missingFile else okFiles 64 2592 4627 a }

/-- As `goodEnv`, but `hash.bin` is an empty file. -/
def emptyHashEnv : Env := { goodEnv with file := okFiles 0 2592 4627 }

/-- As `goodEnv`, but `gBS->LoadImage` answers `EFI_SECURITY_VIOLATION`. -/
def loadImageDeniedEnv : Env := { goodEnv with LoadImage := EFI_SECURITY_VIOLATION }

/-- As `goodEnv`, but `gBS->LoadImage` answers `EFI_NOT_FOUND`. -/
def nextImageMissingEnv : Env := { goodEnv with LoadImage := EFI_NOT_FOUND }

/-- As `goodEnv`, but `OQS_SIG_new` returns NULL. -/
def noAlgorithmEnv : Env := { goodEnv with OQS_SIG_new := false }

/-- As `goodEnv`, but `OQS_SIG_verify` returns `OQS_ERROR`. -/
def badSignatureEnv : Env := { goodEnv with OQS_SIG_verify := -1 }

/-- The three EVP calls of `rsaboot.c` where `EVP_DigestVerifyFinal` reports an
internal error by a negative return value. -/
def rsaboot.finalErrorEnv : rsaboot.Env :=
  { verify_ctx := true, EVP_MD_CTX_new := true, EVP_DigestVerifyInit := 1,
    EVP_DigestVerifyUpdate := 1, EVP_DigestVerifyFinal := -1 }

/-- Every call of `gen_keys.c` succeeds. -/
def gen_keys.okEnv : gen_keys.Env :=
  { OQS_SIG_alg_is_enabled := 1, OQS_SIG_new := true, malloc_public_key := true,
    malloc_private_key := true, OQS_SIG_keypair := OQS_SUCCESS, fopen_pub := true,
    fopen_priv := true }

/-- As `gen_keys.okEnv`, but Dilithium5 is not enabled in liboqs. -/
def gen_keys.disabledEnv : gen_keys.Env := { gen_keys.okEnv with OQS_SIG_alg_is_enabled := 0 }

/-! ## Facts about `LoadFile` -/

theorem EFI_ERROR_OUT_OF_RESOURCES : EFI_ERROR EFI_OUT_OF_RESOURCES = true := by decide

/-- The call list of `LoadFile` has one of three shapes. -/
theorem LoadFile_trace_cases (f : FileOutcome) (a : Artifact) (n : Nat) :
    (LoadFile f a n).trace = [Event.LoadFile a] ∨
    (LoadFile f a n).trace = [Event.LoadFile a, Event.AllocateZeroPool a false] ∨
    (LoadFile f a n).trace = [Event.LoadFile a, Event.AllocateZeroPool a true] := by
  unfold LoadFile
  split_ifs <;> simp

/-- A `LoadFile` call that returns a non-error status has allocated its buffer. -/
theorem LoadFile_trace_of_ok (f : FileOutcome) (a : Artifact) (n : Nat)
    (h : EFI_ERROR (LoadFile f a n).Status = false) :
    (LoadFile f a n).trace = [Event.LoadFile a, Event.AllocateZeroPool a true] := by
  unfold LoadFile at h ⊢
  split_ifs at h ⊢ <;> simp_all [EFI_ERROR_OUT_OF_RESOURCES]

theorem verifyCalls_LoadFile (f : FileOutcome) (a : Artifact) (n : Nat) :
    verifyCalls (LoadFile f a n).trace = 0 := by
  rcases LoadFile_trace_cases f a n with h | h | h <;> rw [h] <;> rfl

theorem chainCalls_LoadFile (f : FileOutcome) (a : Artifact) (n : Nat) :
    chainCalls (LoadFile f a n).trace = 0 := by
  rcases LoadFile_trace_cases f a n with h | h | h <;> rw [h] <;> rfl

theorem chainAfterVerify_LoadFile_append (v : Bool) (f : FileOutcome) (a : Artifact) (n : Nat)
    (t : List Event) :
    chainAfterVerify v ((LoadFile f a n).trace ++ t) = chainAfterVerify v t := by
  rcases LoadFile_trace_cases f a n with h | h | h <;> rw [h] <;>
    simp [chainAfterVerify, Event.isChain, Event.isVerify]

theorem chainAfterVerify_LoadFile (v : Bool) (f : FileOutcome) (a : Artifact) (n : Nat) :
    chainAfterVerify v (LoadFile f a n).trace = true := by
  rcases LoadFile_trace_cases f a n with h | h | h <;> rw [h] <;>
    simp [chainAfterVerify, Event.isChain, Event.isVerify]


/-! ## Facts about `LOAD_FROM_FILE` -/

theorem LOAD_FROM_FILE_trace_of_ok (e : Env) (a : Artifact)
    (h : EFI_ERROR (LOAD_FROM_FILE e a).Status = false) :
    (LOAD_FROM_FILE e a).trace = [Event.LoadFile a, Event.AllocateZeroPool a true] :=
  LoadFile_trace_of_ok _ _ _ h

theorem countP_isChain_LOAD_FROM_FILE (e : Env) (a : Artifact) :
    List.countP Event.isChain (LOAD_FROM_FILE e a).trace = 0 :=
  chainCalls_LoadFile _ _ _

theorem countP_isVerify_LOAD_FROM_FILE (e : Env) (a : Artifact) :
    List.countP Event.isVerify (LOAD_FROM_FILE e a).trace = 0 :=
  verifyCalls_LoadFile _ _ _

theorem chainAfterVerify_LOAD_FROM_FILE_append (v : Bool) (e : Env) (a : Artifact)
    (t : List Event) :
    chainAfterVerify v ((LOAD_FROM_FILE e a).trace ++ t) = chainAfterVerify v t :=
  chainAfterVerify_LoadFile_append _ _ _ _ _

theorem chainAfterVerify_LOAD_FROM_FILE (v : Bool) (e : Env) (a : Artifact) :
    chainAfterVerify v (LOAD_FROM_FILE e a).trace = true :=
  chainAfterVerify_LoadFile _ _ _ _

/-! ## Status returned once `OQS_SIG_verify` has been called -/

/-- A run that called `OQS_SIG_verify` and got a value other than `OQS_SUCCESS`
returns `EFI_SECURITY_VIOLATION`. -/
theorem UefiMain_status_of_verify_failed (e : Env)
    (hv : 0 < verifyCalls (UefiMain e).trace) (hret : e.OQS_SIG_verify ≠ OQS_SUCCESS) :
    (UefiMain e).Status = EFI_SECURITY_VIOLATION := by
  revert hv
  simp only [UefiMain]
  split_ifs with h1 h2 h3 h4 h5 h6 h7 h8 h9
  all_goals simp only [List.cons_append, List.append_assoc, List.nil_append, freeResources,
    verifyCalls, List.countP_cons, List.countP_append, countP_isVerify_LOAD_FROM_FILE,
    Event.isVerify]
  all_goals simp_all

/-- A run that verified successfully and then failed to chain-load returns the
status of the first failing firmware call, or `EFI_NOT_FOUND` when
`FileDevicePath` returned NULL. -/
theorem UefiMain_status_of_chain_failed (e : Env)
    (hv : 0 < verifyCalls (UefiMain e).trace) (hok : e.OQS_SIG_verify = OQS_SUCCESS)
    (hfail : EFI_ERROR e.HandleProtocol = true ∨ e.FileDevicePath = false ∨
      EFI_ERROR e.LoadImage = true ∨ EFI_ERROR e.StartImage = true) :
    ((UefiMain e).Status = e.HandleProtocol ∧ EFI_ERROR e.HandleProtocol = true) ∨
    (UefiMain e).Status = EFI_NOT_FOUND ∨
    ((UefiMain e).Status = e.LoadImage ∧ EFI_ERROR e.LoadImage = true) ∨
    ((UefiMain e).Status = e.StartImage ∧ EFI_ERROR e.StartImage = true) := by
  revert hv
  simp only [UefiMain]
  split_ifs with h1 h2 h3 h4 h5 h6 h7 h8 h9
  all_goals simp only [List.cons_append, List.append_assoc, List.nil_append, freeResources,
    verifyCalls, List.countP_cons, List.countP_append, countP_isVerify_LOAD_FROM_FILE,
    Event.isVerify]
  all_goals simp_all

/-- Apart from a size mismatch on a file that loaded without error, every run
that does not start the next image successfully returns an error status. -/
theorem UefiMain_halt_returns_error (e : Env)
    (hpk : EFI_ERROR (LOAD_FROM_FILE e .publickey).Status = true ∨
      (LOAD_FROM_FILE e .publickey).BufferSize = e.length_public_key)
    (hsig : EFI_ERROR (LOAD_FROM_FILE e .sig).Status = true ∨
      (LOAD_FROM_FILE e .sig).BufferSize = e.length_signature)
    (hhalt : Event.StartImage ∉ (UefiMain e).trace ∨ EFI_ERROR e.StartImage = true) :
    EFI_ERROR (UefiMain e).Status = true := by
  have h21 : EFI_ERROR EFI_ABORTED = true := by decide
  have h14 : EFI_ERROR EFI_NOT_FOUND = true := by decide
  have h26 : EFI_ERROR EFI_SECURITY_VIOLATION = true := by decide
  revert hhalt
  simp only [UefiMain]
  split_ifs with h1 h2 h3 h4 h5 h6 h7 h8 h9
  all_goals simp only [List.cons_append, List.append_assoc, List.nil_append, freeResources]
  all_goals simp_all
  all_goals tauto

/-! ## The trust gate of `UefiMain` -/

/-- C1: if a run of `UefiMain` calls the chain loader (`LoadImage` or `StartImage`)
at all, then `OQS_SIG_new` succeeded, all three `LoadFile` calls returned a
non-error status, `pubkey_len` and `sig_len` equal the expected lengths,
`OQS_SIG_verify` returned `OQS_SUCCESS`, and every chain-loader call comes after
the `OQS_SIG_verify` call. -/
theorem UefiMain_chain_only_if_verified (e : Env)
    (h : 0 < chainCalls (UefiMain e).trace) :
    e.OQS_SIG_new = true ∧
    (∀ a, EFI_ERROR (LOAD_FROM_FILE e a).Status = false) ∧
    (LOAD_FROM_FILE e .publickey).BufferSize = e.length_public_key ∧
    (LOAD_FROM_FILE e .sig).BufferSize = e.length_signature ∧
    e.OQS_SIG_verify = OQS_SUCCESS ∧
    chainAfterVerify false (UefiMain e).trace = true := by
  revert h
  simp only [UefiMain]
  split_ifs with h1 h2 h3 h4 h5 h6 h7 h8 h9
  all_goals simp only [List.cons_append, List.append_assoc, List.nil_append, freeResources,
    chainCalls, List.countP_cons, List.countP_append, countP_isChain_LOAD_FROM_FILE,
    Event.isChain]
  all_goals simp_all [chainAfterVerify, chainAfterVerify_LOAD_FROM_FILE_append,
    chainAfterVerify_LOAD_FROM_FILE, Event.isChain, Event.isVerify]
  all_goals rintro ⟨⟩ <;> simp_all

/-- Witness for C1: the run in which every call succeeds reaches the chain loader. -/
theorem UefiMain_chain_only_if_verified_witness :
    0 < chainCalls (UefiMain goodEnv).trace ∧
    (goodEnv.OQS_SIG_new = true ∧
    (∀ a, EFI_ERROR (LOAD_FROM_FILE goodEnv a).Status = false) ∧
    (LOAD_FROM_FILE goodEnv .publickey).BufferSize = goodEnv.length_public_key ∧
    (LOAD_FROM_FILE goodEnv .sig).BufferSize = goodEnv.length_signature ∧
    goodEnv.OQS_SIG_verify = OQS_SUCCESS ∧
    chainAfterVerify false (UefiMain goodEnv).trace = true) :=
  ⟨by decide, UefiMain_chain_only_if_verified goodEnv (by decide)⟩

/-- C2: if the loaded public key length differs from the expected public key
length, or the loaded signature length differs from the expected signature
length, `UefiMain` makes no `OQS_SIG_verify` call. -/
theorem UefiMain_size_gate_precedes_verify (e : Env)
    (h : (LOAD_FROM_FILE e .publickey).BufferSize ≠ e.length_public_key ∨
      (LOAD_FROM_FILE e .sig).BufferSize ≠ e.length_signature) :
    verifyCalls (UefiMain e).trace = 0 := by
  revert h
  simp only [UefiMain]
  split_ifs with h1 h2 h3 h4 h5 h6 h7 h8 h9
  all_goals simp only [List.cons_append, List.append_assoc, List.nil_append, freeResources,
    verifyCalls, List.countP_cons, List.countP_append, countP_isVerify_LOAD_FROM_FILE,
    Event.isVerify]
  all_goals simp_all

/-- Witness for C2: a signature file one byte short. -/
theorem UefiMain_size_gate_precedes_verify_witness :
    ((LOAD_FROM_FILE truncatedSigEnv .publickey).BufferSize ≠ truncatedSigEnv.length_public_key ∨
      (LOAD_FROM_FILE truncatedSigEnv .sig).BufferSize ≠ truncatedSigEnv.length_signature) ∧
    verifyCalls (UefiMain truncatedSigEnv).trace = 0 :=
  ⟨by decide, UefiMain_size_gate_precedes_verify truncatedSigEnv (by decide)⟩

/-- C3: with a `publickey.bin` that loads without error but is one byte short,
`UefiMain` halts before verifying and before chain-loading, yet the status it
returns is `EFI_SUCCESS`, which is not an error status and is not
`EFI_SECURITY_VIOLATION`. -/
theorem UefiMain_size_mismatch_returns_success :
    EFI_ERROR (LOAD_FROM_FILE truncatedKeyEnv .publickey).Status = false ∧
    (LOAD_FROM_FILE truncatedKeyEnv .publickey).BufferSize ≠ truncatedKeyEnv.length_public_key ∧
    verifyCalls (UefiMain truncatedKeyEnv).trace = 0 ∧
    chainCalls (UefiMain truncatedKeyEnv).trace = 0 ∧
    (UefiMain truncatedKeyEnv).Status = EFI_SUCCESS ∧
    EFI_ERROR (UefiMain truncatedKeyEnv).Status = false ∧
    (UefiMain truncatedKeyEnv).Status ≠ EFI_SECURITY_VIOLATION := by
  decide

/-- C4: when `EVP_DigestVerifyInit` and `EVP_DigestVerifyUpdate` return 1 and
`EVP_DigestVerifyFinal` returns the negative error value -1, `verify_boot_image`
of `rsaboot.c` returns 0 (verified). -/
theorem rsaboot_verify_accepts_negative_final :
    rsaboot.finalErrorEnv.EVP_DigestVerifyFinal = -1 ∧
    rsaboot.verify_boot_image rsaboot.finalErrorEnv = 0 := by
  decide

/-- C5: when `hash.bin` cannot be opened, `UefiMain` returns with the `OQS_SIG`
object acquired once, never released and still live; when `sig.bin` has the
wrong size, it returns with the object and all three buffers still live. -/
theorem UefiMain_early_return_leaks :
    (acquireCount .sig (UefiMain missingHashEnv).trace = 1 ∧
      releaseCount .sig (UefiMain missingHashEnv).trace = 0 ∧
      liveAfter (UefiMain missingHashEnv).trace = some [Resource.sig]) ∧
    liveAfter (UefiMain truncatedSigEnv).trace =
      some [.buffer .sig, .buffer .publickey, .buffer .hash, .sig] := by
  decide

/-- C6 (as stated): an empty `hash.bin` is loaded with a non-error status and a
length of zero, and `UefiMain` still calls `OQS_SIG_verify`, once, with a
message length of zero. -/
theorem UefiMain_empty_hash_reaches_verify :
    EFI_ERROR (LOAD_FROM_FILE emptyHashEnv .hash).Status = false ∧
    (LOAD_FROM_FILE emptyHashEnv .hash).BufferSize = 0 ∧
    Event.OQS_SIG_verify 0 4627 ∈ (UefiMain emptyHashEnv).trace ∧
    verifyCalls (UefiMain emptyHashEnv).trace = 1 := by
  decide

/-- C6 (amended): with positive expected lengths, if any of the three `LoadFile`
calls returns an error status, or `publickey.bin` or `sig.bin` is loaded with a
length of zero, `UefiMain` makes no `OQS_SIG_verify` call. -/
theorem UefiMain_load_failure_skips_verify (e : Env)
    (hpk : 0 < e.length_public_key) (hsig : 0 < e.length_signature)
    (h : (∃ a, EFI_ERROR (LOAD_FROM_FILE e a).Status = true) ∨
      (LOAD_FROM_FILE e .publickey).BufferSize = 0 ∨
      (LOAD_FROM_FILE e .sig).BufferSize = 0) :
    verifyCalls (UefiMain e).trace = 0 := by
  revert h
  simp only [UefiMain]
  split_ifs with h1 h2 h3 h4 h5 h6 h7 h8 h9
  all_goals simp only [List.cons_append, List.append_assoc, List.nil_append, freeResources,
    verifyCalls, List.countP_cons, List.countP_append, countP_isVerify_LOAD_FROM_FILE,
    Event.isVerify]
  all_goals simp_all
  all_goals
    refine ⟨?_, by omega, by omega⟩
    rintro ⟨⟩ <;> simp_all

/-- Witness for C6 (amended): a public key file that cannot be opened. -/
theorem UefiMain_load_failure_skips_verify_witness :
    (0 < missingKeyEnv.length_public_key ∧ 0 < missingKeyEnv.length_signature ∧
      ((∃ a, EFI_ERROR (LOAD_FROM_FILE missingKeyEnv a).Status = true) ∨
        (LOAD_FROM_FILE missingKeyEnv .publickey).BufferSize = 0 ∨
        (LOAD_FROM_FILE missingKeyEnv .sig).BufferSize = 0)) ∧
    verifyCalls (UefiMain missingKeyEnv).trace = 0 :=
  ⟨⟨by decide, by decide, Or.inl ⟨.publickey, by decide⟩⟩,
    UefiMain_load_failure_skips_verify missingKeyEnv (by decide) (by decide)
      (Or.inl ⟨.publickey, by decide⟩)⟩

/-- C7 (as stated): after a successful verification, when `gBS->LoadImage`
answers the error status `EFI_SECURITY_VIOLATION`, `UefiMain` returns
`EFI_SECURITY_VIOLATION`, the status it also returns for a failed verification. -/
theorem UefiMain_chain_failure_can_equal_trust_failure :
    (verifyCalls (UefiMain loadImageDeniedEnv).trace = 1 ∧
      loadImageDeniedEnv.OQS_SIG_verify = OQS_SUCCESS ∧
      EFI_ERROR loadImageDeniedEnv.LoadImage = true ∧
      (UefiMain loadImageDeniedEnv).Status = EFI_SECURITY_VIOLATION) ∧
    (verifyCalls (UefiMain badSignatureEnv).trace = 1 ∧
      badSignatureEnv.OQS_SIG_verify ≠ OQS_SUCCESS ∧
      (UefiMain badSignatureEnv).Status = EFI_SECURITY_VIOLATION) := by
  decide

/-- C7 (amended): after a successful verification, if the chain load fails
(`HandleProtocol`, `LoadImage` or `StartImage` returns an error status, or
`FileDevicePath` returns NULL) and none of the three firmware calls answers
`EFI_SECURITY_VIOLATION` itself, then `UefiMain` returns an error status
different from `EFI_SECURITY_VIOLATION`; and every run whose `OQS_SIG_verify`
call does not return `OQS_SUCCESS` returns `EFI_SECURITY_VIOLATION`. -/
theorem UefiMain_chain_failure_status (e : Env)
    (hv : 0 < verifyCalls (UefiMain e).trace)
    (hok : e.OQS_SIG_verify = OQS_SUCCESS)
    (hfail : EFI_ERROR e.HandleProtocol = true ∨ e.FileDevicePath = false ∨
      EFI_ERROR e.LoadImage = true ∨ EFI_ERROR e.StartImage = true)
    (hHandle : e.HandleProtocol ≠ EFI_SECURITY_VIOLATION)
    (hLoad : e.LoadImage ≠ EFI_SECURITY_VIOLATION)
    (hStart : e.StartImage ≠ EFI_SECURITY_VIOLATION) :
    EFI_ERROR (UefiMain e).Status = true ∧
    (UefiMain e).Status ≠ EFI_SECURITY_VIOLATION ∧
    ∀ e2 : Env, 0 < verifyCalls (UefiMain e2).trace → e2.OQS_SIG_verify ≠ OQS_SUCCESS →
      (UefiMain e2).Status = EFI_SECURITY_VIOLATION := by
  refine ⟨?_, ?_, fun e2 => UefiMain_status_of_verify_failed e2⟩
  · rcases UefiMain_status_of_chain_failed e hv hok hfail with h | h | h | h
    · rw [h.1]; exact h.2
    · rw [h]; decide
    · rw [h.1]; exact h.2
    · rw [h.1]; exact h.2
  · rcases UefiMain_status_of_chain_failed e hv hok hfail with h | h | h | h
    · rw [h.1]; exact hHandle
    · rw [h]; decide
    · rw [h.1]; exact hLoad
    · rw [h.1]; exact hStart

/-- Witness for C7 (amended): the next image is not found by `LoadImage`. -/
theorem UefiMain_chain_failure_status_witness :
    EFI_ERROR (UefiMain nextImageMissingEnv).Status = true ∧
    (UefiMain nextImageMissingEnv).Status ≠ EFI_SECURITY_VIOLATION ∧
    ∀ e2 : Env, 0 < verifyCalls (UefiMain e2).trace → e2.OQS_SIG_verify ≠ OQS_SUCCESS →
      (UefiMain e2).Status = EFI_SECURITY_VIOLATION :=
  UefiMain_chain_failure_status nextImageMissingEnv (by decide) (by decide)
    (Or.inr (Or.inr (Or.inl (by decide)))) (by decide) (by decide) (by decide)

/-- C8: on the run of `gen_keys.c` `main` in which every call succeeds, the
program exits with `EXIT_SUCCESS` and releases `private_key` by a plain `free`,
the only release of that buffer; `cleanup` of `secure_boot.c` releases
`secret_key` by `OQS_MEM_secure_free`. -/
theorem gen_keys_plain_free_of_private_key :
    (∃ r, gen_keys.main gen_keys.okEnv = some r ∧ r.exit = gen_keys.EXIT_SUCCESS ∧
      r.trace.count (gen_keys.Call.free .private_key) = 1 ∧
      r.trace.getLast? = some gen_keys.Call.OQS_SIG_free) ∧
    secure_boot.Call.OQS_MEM_secure_free .secret_key ∈ secure_boot.cleanup true := by
  refine ⟨⟨_, rfl, ?_, ?_, ?_⟩, ?_⟩ <;> decide

/-- C9: if `OQS_SIG_new` returns NULL, `UefiMain` returns `EFI_ABORTED` having
made no `LoadFile` call, no `OQS_SIG_verify` call and no acquisition at all; if
`OQS_SIG_alg_is_enabled` does not return 1 or `OQS_SIG_new` returns NULL,
`gen_keys.c` `main` exits with `EXIT_FAILURE` having made no `malloc` call. -/
theorem algorithm_checked_before_buffers (e : Env) (g : gen_keys.Env)
    (he : e.OQS_SIG_new = false)
    (hg : g.OQS_SIG_alg_is_enabled ≠ 1 ∨ g.OQS_SIG_new = false) :
    ((UefiMain e).Status = EFI_ABORTED ∧
      (UefiMain e).trace = [Event.OQS_SIG_new false] ∧
      loadFileCalls (UefiMain e).trace = 0 ∧
      verifyCalls (UefiMain e).trace = 0 ∧
      ∀ r, acquireCount r (UefiMain e).trace = 0) ∧
    ∃ r, gen_keys.main g = some r ∧ r.exit = gen_keys.EXIT_FAILURE ∧
      gen_keys.mallocCalls r.trace = 0 := by
  constructor
  · have ht : UefiMain e = ⟨EFI_ABORTED, [Event.OQS_SIG_new false]⟩ := by
      simp only [UefiMain, he]
      rfl
    rw [ht]
    refine ⟨rfl, rfl, rfl, rfl, ?_⟩
    intro r
    cases r <;> rfl
  · by_cases h1 : g.OQS_SIG_alg_is_enabled = 1
    · have h2 : g.OQS_SIG_new = false := by
        rcases hg with h | h
        · exact absurd h1 h
        · exact h
      refine ⟨⟨gen_keys.EXIT_FAILURE,
        [gen_keys.Call.OQS_SIG_alg_is_enabled, gen_keys.Call.OQS_SIG_new false]⟩, ?_, rfl, rfl⟩
      simp [gen_keys.main, h1, h2]
    · refine ⟨⟨gen_keys.EXIT_FAILURE, [gen_keys.Call.OQS_SIG_alg_is_enabled]⟩, ?_, rfl, rfl⟩
      simp [gen_keys.main, h1]

/-- Witness for C9: `OQS_SIG_new` returns NULL in `UefiMain`, and Dilithium5 is disabled in `gen_keys.c`. -/
theorem algorithm_checked_before_buffers_witness :
    ((UefiMain noAlgorithmEnv).Status = EFI_ABORTED ∧
      (UefiMain noAlgorithmEnv).trace = [Event.OQS_SIG_new false] ∧
      loadFileCalls (UefiMain noAlgorithmEnv).trace = 0 ∧
      verifyCalls (UefiMain noAlgorithmEnv).trace = 0 ∧
      ∀ r, acquireCount r (UefiMain noAlgorithmEnv).trace = 0) ∧
    ∃ r, gen_keys.main gen_keys.disabledEnv = some r ∧ r.exit = gen_keys.EXIT_FAILURE ∧
      gen_keys.mallocCalls r.trace = 0 :=
  algorithm_checked_before_buffers noAlgorithmEnv gen_keys.disabledEnv (by decide)
    (Or.inl (by decide))

/-- C10: if `OQS_SIG_new` and all three loads succeed with matching public-key
and signature lengths and `OQS_SIG_verify` returns a value other than
`OQS_SUCCESS`, then `UefiMain` calls `OQS_SIG_verify` exactly once, never calls
`LoadImage` or `StartImage`, acquires and releases the `OQS_SIG` object and each
of the three buffers exactly once, leaves no resource live, and returns
`EFI_SECURITY_VIOLATION`. -/
theorem UefiMain_verify_failure (e : Env)
    (hnew : e.OQS_SIG_new = true)
    (hload : ∀ a, EFI_ERROR (LOAD_FROM_FILE e a).Status = false)
    (hpk : (LOAD_FROM_FILE e .publickey).BufferSize = e.length_public_key)
    (hsig : (LOAD_FROM_FILE e .sig).BufferSize = e.length_signature)
    (hret : e.OQS_SIG_verify ≠ OQS_SUCCESS) :
    verifyCalls (UefiMain e).trace = 1 ∧
    chainCalls (UefiMain e).trace = 0 ∧
    (∀ r, acquireCount r (UefiMain e).trace = 1 ∧ releaseCount r (UefiMain e).trace = 1) ∧
    liveAfter (UefiMain e).trace = some [] ∧
    (UefiMain e).Status = EFI_SECURITY_VIOLATION := by
  have ht : UefiMain e = ⟨EFI_SECURITY_VIOLATION,
      [Event.OQS_SIG_new true, Event.LoadFile .hash, Event.AllocateZeroPool .hash true,
        Event.LoadFile .publickey, Event.AllocateZeroPool .publickey true,
        Event.LoadFile .sig, Event.AllocateZeroPool .sig true,
        Event.OQS_SIG_verify (LOAD_FROM_FILE e .hash).BufferSize e.length_signature,
        Event.OQS_SIG_free, Event.FreePool .hash, Event.FreePool .publickey,
        Event.FreePool .sig]⟩ := by
    simp [UefiMain, hnew, hload, hpk, hsig, hret, LOAD_FROM_FILE_trace_of_ok, freeResources]
  rw [ht]
  refine ⟨rfl, rfl, ?_, rfl, rfl⟩
  intro r
  cases r with
  | sig => exact ⟨rfl, rfl⟩
  | buffer a => cases a <;> exact ⟨rfl, rfl⟩

/-- Witness for C10: all loads succeed and `OQS_SIG_verify` returns `OQS_ERROR`. -/
theorem UefiMain_verify_failure_witness :
    verifyCalls (UefiMain badSignatureEnv).trace = 1 ∧
    chainCalls (UefiMain badSignatureEnv).trace = 0 ∧
    (∀ r, acquireCount r (UefiMain badSignatureEnv).trace = 1 ∧
      releaseCount r (UefiMain badSignatureEnv).trace = 1) ∧
    liveAfter (UefiMain badSignatureEnv).trace = some [] ∧
    (UefiMain badSignatureEnv).Status = EFI_SECURITY_VIOLATION :=
  UefiMain_verify_failure badSignatureEnv (by decide) (by intro a; cases a <;> decide)
    (by decide) (by decide) (by decide)

end SecureBoot
